import Mathlib

/-!
Verification development for the WebQx telehealth tier-management and
signaling subsystem.  Client-side code (TierService, TelehealthScreen,
SettingsScreen, telehealthAPI) is embedded directly from the sources;
backend components that exist only as declarations/callers in the
repository (tier selector, clinic policy store, session state machine,
signaling channel, ICE relay) are modelled from the specification, as
marked on each definition.
-/

namespace WebQx

/-! ## TierService (mobile-app TierService.js) -/

/-- Feature record for one subscription tier, as in the `features` object
of `TierService.getTierFeatures`. -/
structure TierFeatures where
  videoCall : String
  maxVideoQuality : String
  recordingDuration : Nat
  storageLimit : Nat
  analyticsLevel : String
  supportLevel : String
  features : List String
deriving DecidableEq

/-- The `standard` entry of the `features` object. -/
def standardFeatures : TierFeatures :=
  { videoCall := "webrtc"
    maxVideoQuality := "720p"
    recordingDuration := 30
    storageLimit := 1
    analyticsLevel := "basic"
    supportLevel := "community"
    features :=
      [ "WebRTC video calls"
      , "Basic health tracking"
      , "Journal with text entries"
      , "Basic EMR access"
      , "Community support" ] }

/-- The `premium` entry of the `features` object. -/
def premiumFeatures : TierFeatures :=
  { videoCall := "zoom"
    maxVideoQuality := "1080p"
    recordingDuration := 120
    storageLimit := 10
    analyticsLevel := "advanced"
    supportLevel := "priority"
    features :=
      [ "Zoom HD video calls"
      , "Advanced health analytics"
      , "Audio + text journal entries"
      , "Full EMR integration"
      , "Priority support"
      , "AI health insights"
      , "Extended storage" ] }

/-- Embeds the JavaScript property lookup `features[userTier]`: the object has exactly
the keys `standard` and `premium`. -/
def featuresTable (tier : String) : Option TierFeatures :=
  if tier = "standard" then some standardFeatures
  else if tier = "premium" then some premiumFeatures
  else none

/-- Embeds `TierService.getTierFeatures(tier)`: `features[userTier] || features.standard`. -/
def getTierFeatures (tier : String) : TierFeatures :=
  (featuresTable tier).getD standardFeatures

/-- Embeds `TierService.checkFeatureAccess(feature)` evaluated with the resolved
tier made explicit: `featureAccessMap[feature] || false`. -/
def checkFeatureAccess (tier : String) (feature : String) : Bool :=
  let tf := getTierFeatures tier
  if feature = "zoom_video" then tf.videoCall = "zoom"
  else if feature = "hd_video" then tf.maxVideoQuality = "1080p"
  else if feature = "audio_journal" then tf.features.contains "Audio + text journal entries"
  else if feature = "advanced_analytics" then tf.analyticsLevel = "advanced"
  else if feature = "priority_support" then tf.supportLevel = "priority"
  else if feature = "ai_insights" then tf.features.contains "AI health insights"
  else if feature = "extended_storage" then decide (1 < tf.storageLimit)
  else false

/-- Outcome of the token lookup and the `/tiers/current` request inside
`TierService.getUserTier`: no stored token, a thrown/request error, or a
response carrying `response.data.tier` (absent or empty string is falsy). -/
inductive TierFetch where
  | noToken : TierFetch
  | fetchError : TierFetch
  | ok : Option String → TierFetch
deriving DecidableEq

/-- Embeds `TierService.getUserTier()`: returns `'standard'` when unauthenticated,
on any error, or when the response carries a falsy tier; otherwise the
response tier. -/
def getUserTier : TierFetch → String
  | .noToken => "standard"
  | .fetchError => "standard"
  | .ok none => "standard"
  | .ok (some t) => if t = "" then "standard" else t

end WebQx

namespace WebQx

/-! ## Bandwidth recommendation (frontend telehealthAPI.testBandwidth) -/

/-- The tier string computed inside `telehealthAPI.testBandwidth`:
`(upload_mbps > 1.5 && download_mbps > 2) ? 'zoom' : 'webrtc'`.
The thresholds are the fixed literals 1.5 and 2; the function takes no
`minimum_bandwidth_for_zoom` input and computes no confidence value. -/
def recommendedTier (uploadMbps downloadMbps : ℚ) : String :=
  if 3/2 < uploadMbps ∧ 2 < downloadMbps then "zoom" else "webrtc"

/-- Written from the spec's words, for comparison with `recommendedTier`:
recommend zoom iff `uploadMbps >= minBandwidthForZoom/2 &&
downloadMbps >= minBandwidthForZoom`. -/
def specRecommendedTier (uploadMbps downloadMbps minBandwidthForZoom : ℚ) : String :=
  if minBandwidthForZoom/2 ≤ uploadMbps ∧ minBandwidthForZoom ≤ downloadMbps
  then "zoom" else "webrtc"

/-! ## TelehealthScreen (mobile-app TelehealthScreen.js) -/

/-- The two transports a session can run over. -/
inductive Tier where
  | webrtc : Tier
  | zoom : Tier
deriving DecidableEq

/-- Component state of `TelehealthScreen` relevant to the tier decision:
`userTier`, set once by `initializeTelehealth` on mount (`useEffect` with
empty dependency list) and read by every later `startCall`. -/
structure ScreenState where
  userTier : Option String
deriving DecidableEq

/-- Embeds `initializeTelehealth`: fetches the tier via `TierService.getUserTier()`
at mount time and stores it in component state.  `lookup` gives the
current subscription tier at each instant; `mountTime` is when the screen
mounted. -/
def initializeTelehealth (lookup : Nat → String) (mountTime : Nat) : ScreenState :=
  { userTier := some (lookup mountTime) }

/-- The tier branch of `startCall`: `userTier === 'premium'` selects the
Zoom path, anything else the WebRTC path.  It reads the cached component
state and performs no fresh lookup. -/
def startCallTier (st : ScreenState) : Tier :=
  if st.userTier = some "premium" then .zoom else .webrtc

/-- Written from the spec's words, for comparison with `startCallTier`:
the entitlement used by the tier decision is recomputed by a fresh lookup
at decision time `t`. -/
def freshLookupTier (lookup : Nat → String) (t : Nat) : Tier :=
  if lookup t = "premium" then .zoom else .webrtc

/-- The call-teardown state of `TelehealthScreen` touched by `endCall`. -/
structure CallState where
  localStream : Bool
  peerConnection : Bool
  remoteStream : Bool
  isInCall : Bool
  isMuted : Bool
  isVideoOff : Bool
deriving DecidableEq

/-- Embeds `endCall`: stops and clears the local stream and peer connection when
present, then unconditionally clears the remote stream and the in-call,
mute and video-off flags.  It never throws (errors are caught and logged). -/
def endCall (_st : CallState) : CallState :=
  { localStream := false
    peerConnection := false
    remoteStream := false
    isInCall := false
    isMuted := false
    isVideoOff := false }

end WebQx

namespace WebQx

/-! ## Tier selector and audit (backend, modelled from the spec) -/

/-- Reasons a tier decision can carry. -/
inductive Reason where
  | clinicDefault : Reason
  | patientOverride : Reason
  | bandwidthRecommendation : Reason
  | entitlementDeniedFallback : Reason
  | priorTierFailureFallback : Reason
deriving DecidableEq

/-- The per-clinic telehealth configuration (the fields the tier selector
reads), mirroring the `ClinicSettings` interface of telehealthAPI. -/
structure ClinicPolicy where
  defaultTier : Tier
  allowFallbackToWebrtc : Bool
  allowPatientChoice : Bool
  bandwidthDetectionEnabled : Bool
  minBandwidthMbpsForZoom : ℚ
deriving DecidableEq

/-- An audit record as the audit logger stores it. -/
structure AuditEntry where
  changeType : String
  reason : String
deriving DecidableEq

/-- A tier decision: chosen tier, reason, and the low-confidence flag set
when a zoom default is kept against a webrtc bandwidth recommendation. -/
structure TierDecision where
  chosenTier : Tier
  reason : Reason
  lowConfidence : Bool
deriving DecidableEq

/-- Modelled from the spec: rules 3 and 4 of the backend Tier Selector
(`backend/apps/telehealth`, not under src/) — bandwidth-driven fallback
from a zoom default, else the clinic default. -/
def selectTierRest (p : ClinicPolicy) (bw : Option Tier) : TierDecision × List AuditEntry :=
  if p.bandwidthDetectionEnabled = true ∧ bw = some .webrtc ∧ p.defaultTier = .zoom then
    if p.allowFallbackToWebrtc then
      (⟨.webrtc, .bandwidthRecommendation, false⟩, [])
    else
      (⟨.zoom, .clinicDefault, true⟩, [])
  else
    (⟨p.defaultTier, .clinicDefault, false⟩, [])

/-- Modelled from the spec: the backend Tier Selector `selectTier`
(`backend/apps/telehealth`, not under src/).  First matching rule wins:
1. zoom default without entitlement forces webrtc, reason
   `entitlement-denied-fallback`, and emits one audit entry;
2. patient override when allowed and not an unentitled zoom choice;
3./4. delegated to `selectTierRest`.
Returns the decision together with the audit entries it emits. -/
def selectTier (p : ClinicPolicy) (entitlement : Bool) (pref : Option Tier)
    (bw : Option Tier) : TierDecision × List AuditEntry :=
  if p.defaultTier = .zoom ∧ entitlement = false then
    (⟨.webrtc, .entitlementDeniedFallback, false⟩,
     [⟨"tier-fallback", "policy-entitlement-mismatch"⟩])
  else
    match pref with
    | some t =>
        if p.allowPatientChoice = true ∧ (t ≠ .zoom ∨ entitlement = true) then
          (⟨t, .patientOverride, false⟩, [])
        else
          selectTierRest p bw
    | none => selectTierRest p bw

/-! ## Clinic policy store (backend, modelled from the spec) and the
client-side save guard (frontend SettingsScreen.tsx) -/

/-- The HTTP-style outcome of a clinic-settings update. -/
inductive UpdateOutcome where
  | ok : UpdateOutcome
  | forbidden403 : UpdateOutcome
  | conflict409 : UpdateOutcome
deriving DecidableEq

/-- Modelled from the spec: the backend clinic policy store handling
`PUT /telehealth/clinic-settings/update/` (`backend/apps/telehealth`, not
under src/): 403 without edit permission, 409 when the update would set
`defaultTier = zoom` without zoom entitlement at the time of the write;
the stored policy is returned unchanged on any rejection. -/
def updateClinicSettings (stored : ClinicPolicy) (canEdit : Bool)
    (entitlement : Bool) (incoming : ClinicPolicy) : UpdateOutcome × ClinicPolicy :=
  if canEdit = false then (.forbidden403, stored)
  else if incoming.defaultTier = .zoom ∧ entitlement = false then (.conflict409, stored)
  else (.ok, incoming)

/-- What `handleSaveSettings` in SettingsScreen.tsx ends up doing. -/
inductive SaveAction where
  | accessDeniedAlert : SaveAction
  | subscriptionRequiredAlert : SaveAction
  | putRequest : SaveAction
deriving DecidableEq

/-- Embeds `handleSaveSettings`: refuses without loaded settings or edit
permission; refuses with a subscription alert when the selected default
tier is zoom and `can_use_zoom` is false; only otherwise issues the PUT. -/
def handleSaveSettings (hasSettings canEdit : Bool) (selectedTier : Tier)
    (canUseZoom : Bool) : SaveAction :=
  if hasSettings = false ∨ canEdit = false then .accessDeniedAlert
  else if selectedTier = .zoom ∧ canUseZoom = false then .subscriptionRequiredAlert
  else .putRequest

/-! ## Session state machine (backend, modelled from the spec; the
`TelehealthSession` interface in src only declares the status values) -/

/-- Session status values of the `TelehealthSession` declaration. -/
inductive SessionStatus where
  | scheduled : SessionStatus
  | waiting : SessionStatus
  | active : SessionStatus
  | ended : SessionStatus
  | cancelled : SessionStatus
  | failed : SessionStatus
deriving DecidableEq

/-- Modelled from the spec: the transition relation of the backend session
state machine (`backend/apps/telehealth`, not under src/):
`scheduled → waiting → active → ended`, `scheduled → cancelled`, and
any state `→ failed`. -/
def stepAllowed : SessionStatus → SessionStatus → Bool
  | .scheduled, .waiting => true
  | .waiting, .active => true
  | .active, .ended => true
  | .scheduled, .cancelled => true
  | _, .failed => true
  | _, _ => false

/-- Modelled from the spec: `POST /telehealth/sessions/{id}/leave/`
(`backend/apps/telehealth`, not under src/; telehealthAPI.leaveSession is
its caller).  Ending an already-`ended` session is a no-op success adding
no audit entry; otherwise the session moves to `ended` and one audit
entry records the transition.  Returns (new status, audit log, success). -/
def leaveSession (status : SessionStatus) (audit : List AuditEntry) :
    SessionStatus × List AuditEntry × Bool :=
  if status = .ended then (.ended, audit, true)
  else (.ended, audit ++ [⟨"session-end", "leave"⟩], true)

end WebQx

namespace WebQx

/-! ## Signaling channel (backend, modelled from the spec;
ApiService.sendOffer / sendIceCandidate are its callers) -/

/-- The signaling error taxonomy. -/
inductive SignalingError where
  | sessionNotFound : SignalingError
  | duplicateOffer : SignalingError
  | noPendingOffer : SignalingError
deriving DecidableEq

/-- State of the signaling channel: each session's status keyed by session id,
and the unconsumed offers keyed by session id. -/
structure SignalingState where
  sessions : List (String × SessionStatus)
  pendingOffers : List (String × String)
deriving DecidableEq

/-- Modelled from the spec: the backend handler for
`POST /telehealth/sessions/{id}/offer` (`backend/apps/telehealth`, not
under src/; ApiService.sendOffer is its caller).  Fails with
`SessionNotFound` when no `waiting`/`scheduled` session matches the id,
with `DuplicateOffer` when an unconsumed offer already exists; on error
the channel state is unchanged.  Returns (state, error?). -/
def sendOffer (st : SignalingState) (sid : String) (desc : String) :
    SignalingState × Option SignalingError :=
  match st.sessions.lookup sid with
  | none => (st, some .sessionNotFound)
  | some s =>
      if s = .waiting ∨ s = .scheduled then
        if (st.pendingOffers.lookup sid).isSome then (st, some .duplicateOffer)
        else ({ st with pendingOffers := (sid, desc) :: st.pendingOffers }, none)
      else (st, some .sessionNotFound)

/-! ## ICE candidate relay (backend, modelled from the spec;
ApiService.sendIceCandidate posts candidates in emission order) -/

/-- One endpoint's candidate queue at the relay: candidates accepted but
not yet delivered, and candidates already delivered to the peer. -/
structure EndpointQueue where
  pending : List String
  delivered : List String
deriving DecidableEq

/-- An event at the relay for one endpoint's queue: the endpoint sends a
candidate, or the relay delivers the oldest pending candidate. -/
inductive RelayEvent where
  | send : String → RelayEvent
  | deliver : RelayEvent
deriving DecidableEq

/-- Modelled from the spec: the per-endpoint ICE candidate queue of the
signaling channel (`backend/apps/telehealth`, not under src/).  A send
appends to the pending queue; a delivery moves the oldest pending
candidate to the delivered sequence (and is a no-op on an empty queue). -/
def applyRelayEvent (q : EndpointQueue) : RelayEvent → EndpointQueue
  | .send c => { q with pending := q.pending ++ [c] }
  | .deliver =>
      match q.pending with
      | [] => q
      | c :: rest => ⟨rest, q.delivered ++ [c]⟩

/-- Run a schedule of relay events on one endpoint's queue. -/
def runRelay (q : EndpointQueue) : List RelayEvent → EndpointQueue
  | [] => q
  | e :: es => runRelay (applyRelayEvent q e) es

/-- The candidates an event schedule sends, in emission order. -/
def sentCandidates : List RelayEvent → List String
  | [] => []
  | .send c :: es => c :: sentCandidates es
  | .deliver :: es => sentCandidates es

end WebQx

namespace WebQx

/-! ## Theorems settling the claims -/

/-- C1: the claim says `canUseManagedVideo` is true iff the tier is premium
or enterprise.  Evaluating the code at the failing input: the `features`
object of `getTierFeatures` has no `enterprise` key, so `'enterprise'`
falls back to the standard (webrtc) feature set and
`checkFeatureAccess('zoom_video')` yields `false` for it, although
SettingsScreen.tsx itself says zoom requires a "Premium or Enterprise
subscription".  Premium yields true and unknown tiers yield false as
claimed. -/
theorem zoomVideoEntitlement_enterprise_denied :
    checkFeatureAccess "premium" "zoom_video" = true ∧
    checkFeatureAccess "enterprise" "zoom_video" = false ∧
    checkFeatureAccess "free" "zoom_video" = false ∧
    getTierFeatures "enterprise" = standardFeatures := by
  refine ⟨rfl, rfl, rfl, rfl⟩

/-- C2: for every clinic policy with a zoom default tier and entitlement
false, the tier selection returns webrtc with reason
`entitlement-denied-fallback` and emits exactly one audit entry. -/
theorem selectTier_entitlementDenied (p : ClinicPolicy) (pref bw : Option Tier)
    (h : p.defaultTier = .zoom) :
    (selectTier p false pref bw).1.chosenTier = .webrtc ∧
    (selectTier p false pref bw).1.reason = .entitlementDeniedFallback ∧
    (selectTier p false pref bw).2.length = 1 := by
  simp [selectTier, h]

/-- C2 witness: the theorem applied to a concrete zoom-default policy. -/
theorem selectTier_entitlementDenied_witness :
    (selectTier ⟨.zoom, true, true, true, 2⟩ false none none).1.chosenTier = .webrtc ∧
    (selectTier ⟨.zoom, true, true, true, 2⟩ false none none).1.reason = .entitlementDeniedFallback ∧
    (selectTier ⟨.zoom, true, true, true, 2⟩ false none none).2.length = 1 :=
  selectTier_entitlementDenied ⟨.zoom, true, true, true, 2⟩ none none rfl

/-- C3 counterexample: with `minBandwidthForZoom = 10`, upload 2 and
download 3, the code recommends zoom while the claimed rule
(`upload >= min/2 && download >= min`) recommends webrtc: the code uses
the fixed thresholds 1.5/2 and ignores the configured threshold. -/
theorem recommendedTier_threshold_counterexample :
    recommendedTier 2 3 = "zoom" ∧ specRecommendedTier 2 3 10 = "webrtc" := by
  constructor
  · unfold recommendedTier
    rw [if_pos]
    constructor <;> norm_num
  · unfold specRecommendedTier
    rw [if_neg]
    norm_num

/-- C3 amended: `testBandwidth` recommends zoom iff the measured upload
exceeds 1.5 Mbps and the measured download exceeds 2 Mbps (strictly,
fixed literals independent of `minimum_bandwidth_for_zoom`); it computes
no confidence value. -/
theorem recommendedTier_fixedThresholds (u d : ℚ) :
    recommendedTier u d = "zoom" ↔ (3/2 < u ∧ 2 < d) := by
  unfold recommendedTier
  split
  · next h => simp [h]
  · next h => simp [h]

/-- C3 witness: the amended rule instantiated at upload 2, download 3. -/
theorem recommendedTier_fixedThresholds_witness :
    recommendedTier 2 3 = "zoom" ↔ ((3:ℚ)/2 < 2 ∧ (2:ℚ) < 3) :=
  recommendedTier_fixedThresholds 2 3

/-- C4: the clinic policy store rejects an update that would set the
default tier to zoom without zoom entitlement with HTTP 409, leaving the
stored policy unchanged; and the client-side save handler never even
issues the PUT in that situation. -/
theorem clinicPolicyStore_failsClosed (stored incoming : ClinicPolicy)
    (hz : incoming.defaultTier = .zoom) :
    updateClinicSettings stored true false incoming = (.conflict409, stored) ∧
    (∀ hasSettings canEdit : Bool,
        handleSaveSettings hasSettings canEdit .zoom false ≠ .putRequest) := by
  constructor
  · simp [updateClinicSettings, hz]
  · intro hasSettings canEdit
    cases hasSettings <;> cases canEdit <;> decide

/-- C4 witness: the theorem applied to a concrete webrtc-stored /
zoom-incoming pair. -/
theorem clinicPolicyStore_failsClosed_witness :
    updateClinicSettings ⟨.webrtc, true, true, true, 2⟩ true false ⟨.zoom, true, true, true, 2⟩ =
      (.conflict409, ⟨.webrtc, true, true, true, 2⟩) ∧
    (∀ hasSettings canEdit : Bool,
        handleSaveSettings hasSettings canEdit .zoom false ≠ .putRequest) :=
  clinicPolicyStore_failsClosed ⟨.webrtc, true, true, true, 2⟩ ⟨.zoom, true, true, true, 2⟩ rfl

/-- C5 counterexample: with a subscription that is premium at mount time 0
but standard at decision time 1, `startCall` still picks zoom from the
cached `userTier`, while a fresh lookup at decision time yields webrtc:
the entitlement is cached in component state beyond request scope. -/
theorem startCallTier_staleCache_counterexample :
    startCallTier
        (initializeTelehealth (fun n => if n = 0 then "premium" else "standard") 0) = .zoom ∧
    freshLookupTier (fun n => if n = 0 then "premium" else "standard") 1 = .webrtc :=
  ⟨rfl, rfl⟩

/-- C5 amended: the tier used by `startCall` equals the lookup at mount
time (the value `initializeTelehealth` cached), not a fresh lookup at
decision time. -/
theorem startCallTier_mountTimeLookup (lookup : Nat → String) (t0 : Nat) :
    startCallTier (initializeTelehealth lookup t0) = freshLookupTier lookup t0 := by
  simp [startCallTier, initializeTelehealth, freshLookupTier]

/-- C5 witness: the amended statement at a concrete subscription history. -/
theorem startCallTier_mountTimeLookup_witness :
    startCallTier (initializeTelehealth (fun _ => "premium") 0) =
      freshLookupTier (fun _ => "premium") 0 :=
  startCallTier_mountTimeLookup (fun _ => "premium") 0

/-- C6: leaving a session is idempotent — the first leave yields `ended`,
and a second leave on the already-ended session is a no-op success that
returns `ended` again and appends no audit entry; the client-side
`endCall` teardown is likewise idempotent. -/
theorem leaveSession_idempotent (status : SessionStatus) (audit : List AuditEntry)
    (st : CallState) :
    (leaveSession status audit).1 = .ended ∧
    leaveSession (leaveSession status audit).1 (leaveSession status audit).2.1 =
      ((leaveSession status audit).1, (leaveSession status audit).2.1, true) ∧
    endCall (endCall st) = endCall st := by
  have h1 : (leaveSession status audit).1 = SessionStatus.ended := by
    unfold leaveSession
    split <;> rfl
  refine ⟨h1, ?_, rfl⟩
  rw [h1]
  simp [leaveSession]

/-- C6 witness: the theorem applied to an active session with an empty
audit log and an in-call client state. -/
theorem leaveSession_idempotent_witness :
    (leaveSession .active []).1 = .ended ∧
    leaveSession (leaveSession .active []).1 (leaveSession .active []).2.1 =
      ((leaveSession .active []).1, (leaveSession .active []).2.1, true) ∧
    endCall (endCall ⟨true, true, true, true, false, false⟩) =
      endCall ⟨true, true, true, true, false, false⟩ :=
  leaveSession_idempotent .active [] ⟨true, true, true, true, false, false⟩

/-- C7: `sendOffer` fails with `SessionNotFound` iff no waiting/scheduled
session matches the id, fails with `DuplicateOffer` iff a matching
session exists and an unconsumed offer is pending, in particular an offer
for an `ended` session yields `SessionNotFound`, and any error leaves the
channel state unchanged. -/
theorem sendOffer_errorContract (st : SignalingState) (sid desc : String) :
    ((sendOffer st sid desc).2 = some .sessionNotFound ↔
      ¬(st.sessions.lookup sid = some .waiting ∨ st.sessions.lookup sid = some .scheduled)) ∧
    ((sendOffer st sid desc).2 = some .duplicateOffer ↔
      ((st.sessions.lookup sid = some .waiting ∨ st.sessions.lookup sid = some .scheduled) ∧
        (st.pendingOffers.lookup sid).isSome = true)) ∧
    (st.sessions.lookup sid = some .ended → (sendOffer st sid desc).2 = some .sessionNotFound) ∧
    ((sendOffer st sid desc).2 = none ∨ (sendOffer st sid desc).1 = st) := by
  unfold sendOffer
  rcases h : st.sessions.lookup sid with _ | s
  · simp [h]
  · by_cases hp : (st.pendingOffers.lookup sid).isSome = true
    · cases s <;> simp [h, hp]
    · cases s <;> simp [h, hp]

/-- C7 witness: an offer for a concrete session in `ended` state yields
`SessionNotFound`. -/
theorem sendOffer_errorContract_witness :
    (SignalingState.mk [("s", .ended)] []).sessions.lookup "s" = some .ended ∧
    (sendOffer ⟨[("s", .ended)], []⟩ "s" "d").2 = some .sessionNotFound :=
  ⟨by decide, (sendOffer_errorContract ⟨[("s", .ended)], []⟩ "s" "d").2.2.1 (by decide)⟩

/-- C8: the transition table has no `scheduled → active` edge, and in
every transition sequence respecting the table, a state followed by
`active` is `waiting` — every reachable `active` was preceded by
`waiting`. -/
theorem sessionStateMachine_noDirectActive :
    (stepAllowed .scheduled .active = false) ∧
    (∀ t : List SessionStatus, List.Chain' (fun a b => stepAllowed a b = true) t →
      ∀ i : Nat, t.get? (i + 1) = some .active → t.get? i = some .waiting) := by
  have key : ∀ s : SessionStatus, stepAllowed s .active = true → s = .waiting := by
    intro s hs
    cases s <;> simp [stepAllowed] at hs
    rfl
  refine ⟨rfl, ?_⟩
  intro t hc i h
  rcases List.get?_eq_some.mp h with ⟨hlt, hget⟩
  have hi : i < t.length - 1 := by omega
  have hstep := List.chain'_iff_get.mp hc i hi
  have hact : t.get ⟨i + 1, by omega⟩ = SessionStatus.active := hget
  rw [hact] at hstep
  have hw := key _ hstep
  rw [List.get?_eq_get (show i < t.length by omega), hw]

/-- C8 witness: the lifecycle `scheduled → waiting → active` respects the
table and its state before `active` is `waiting`. -/
theorem sessionStateMachine_noDirectActive_witness :
    List.Chain' (fun a b => stepAllowed a b = true)
      [SessionStatus.scheduled, .waiting, .active] ∧
    [SessionStatus.scheduled, .waiting, .active].get? 1 = some .waiting := by
  have hchain : List.Chain' (fun a b => stepAllowed a b = true)
      [SessionStatus.scheduled, .waiting, .active] :=
    List.chain'_cons.mpr ⟨rfl, List.chain'_cons.mpr ⟨rfl, List.chain'_singleton _⟩⟩
  exact ⟨hchain, sessionStateMachine_noDirectActive.2 _ hchain 1 (by decide)⟩

/-- Invariant behind C9: running any event schedule on an endpoint queue,
the delivered sequence followed by the still-pending sequence equals the
initial content followed by the candidates sent, in emission order. -/
theorem runRelay_content (evs : List RelayEvent) : ∀ q : EndpointQueue,
    (runRelay q evs).delivered ++ (runRelay q evs).pending =
      q.delivered ++ q.pending ++ sentCandidates evs := by
  induction evs with
  | nil =>
      intro q
      simp [runRelay, sentCandidates]
  | cons e es ih =>
      intro q
      cases e with
      | send c => simp [runRelay, applyRelayEvent, sentCandidates, ih]
      | deliver =>
          cases hq : q.pending with
          | nil => simp [runRelay, applyRelayEvent, hq, sentCandidates, ih]
          | cons c rest => simp [runRelay, applyRelayEvent, hq, sentCandidates, ih]

/-- C9: for any interleaving of sends and relay deliveries on one
endpoint's queue, the delivered candidates followed by the pending ones
equal the sent sequence — so once the queue is drained the peer has
received exactly the candidates in the order they were sent, regardless
of relay timing. -/
theorem iceRelay_fifo (evs : List RelayEvent) :
    (runRelay ⟨[], []⟩ evs).delivered ++ (runRelay ⟨[], []⟩ evs).pending =
      sentCandidates evs ∧
    ((runRelay ⟨[], []⟩ evs).pending = [] →
      (runRelay ⟨[], []⟩ evs).delivered = sentCandidates evs) := by
  have h := runRelay_content evs ⟨[], []⟩
  simp at h
  refine ⟨h, ?_⟩
  intro hp
  simpa [hp] using h

/-- C9 witness: sending a, b, c with interleaved deliveries drains the
queue and delivers exactly a, b, c in order. -/
theorem iceRelay_fifo_witness :
    (runRelay ⟨[], []⟩
        [.send "a", .deliver, .send "b", .send "c", .deliver, .deliver]).pending = [] ∧
    (runRelay ⟨[], []⟩
        [.send "a", .deliver, .send "b", .send "c", .deliver, .deliver]).delivered =
      sentCandidates [.send "a", .deliver, .send "b", .send "c", .deliver, .deliver] :=
  ⟨rfl, (iceRelay_fifo _).2 rfl⟩

/-- C10: `getUserTier` fails open to the free tier — it returns
`'standard'` whenever no auth token is stored or the tier request errors
(and is total by construction) — and `getTierFeatures` returns the
standard (webrtc) feature set for any tier other than the two known
keys. -/
theorem getUserTier_failsOpen :
    (∀ r : TierFetch, (r = .noToken ∨ r = .fetchError) → getUserTier r = "standard") ∧
    (∀ t : String, t ≠ "standard" → t ≠ "premium" → getTierFeatures t = standardFeatures) := by
  constructor
  · rintro r (rfl | rfl) <;> rfl
  · intro t h1 h2
    simp [getTierFeatures, featuresTable, h1, h2]

/-- C10 witness: a failing request resolves to standard, and the unknown
tier string enterprise resolves to the standard feature set. -/
theorem getUserTier_failsOpen_witness :
    getUserTier .fetchError = "standard" ∧ getTierFeatures "enterprise" = standardFeatures :=
  ⟨getUserTier_failsOpen.1 _ (Or.inr rfl),
   getUserTier_failsOpen.2 "enterprise" (by decide) (by decide)⟩

end WebQx
